import Mathlib

/-
Verification of the funding-catalog dashboard (src/web/js/main.js) and the
spec-modelled aggregation engine.  JavaScript numbers are modelled as exact
rationals; JSON objects that the presentation layer reads field-by-field are
modelled as association lists from field names to JS values, so that property
access `obj.field` is lookup of the literal string key, exactly as in JS.
-/

namespace FundingCatalog

/-- A JavaScript value as it occurs inside the loaded JSON documents:
a number, a string, the literal `null`, or `undefined` (the result of
reading an absent property).  Nested arrays of objects are modelled one
level up (see `TField`) where the code needs them. -/
inductive JVal where
  | num (q : ℚ)
  | str (s : String)
  | jnull
  | undef
deriving DecidableEq

/-- A JSON object: an association list from property names to values.
Property access in the JS source (`entry.share_pct`) is `getField` with
the literal key string. -/
abbrev JObj := List (String × JVal)

/-- JS property read: the value stored under `k`, or `undefined` if absent. -/
def getField (o : JObj) (k : String) : JVal :=
  match o.find? (fun p => p.1 == k) with
  | some p => p.2
  | none => JVal.undef

/-- JS truthiness for the values we model: numbers are truthy iff nonzero,
strings iff nonempty; `null` and `undefined` are falsy. -/
def truthy (v : JVal) : Bool :=
  match v with
  | JVal.num q => decide (q ≠ 0)
  | JVal.str s => decide (s ≠ "")
  | JVal.jnull => false
  | JVal.undef => false

/-- Numeric coercion used where the source compares or subtracts document
fields that are numbers; non-numbers (never present in well-formed
documents at these positions) coerce to 0. -/
def asNum (v : JVal) : ℚ :=
  match v with
  | JVal.num q => q
  | _ => 0

/-- String coercion for fields the source uses as strings. -/
def asStr (v : JVal) : String :=
  match v with
  | JVal.str s => s
  | _ => ""

/-- JS comparison `v >= c` where `v` is a document field: true only when the
field holds a number that is `≥ c` (comparison against `undefined` is
false, as in JS, since `undefined` coerces to NaN). -/
def jsGE (v : JVal) (c : ℚ) : Bool :=
  match v with
  | JVal.num q => decide (q ≥ c)
  | _ => false

/-- JS comparison `v <= c` on a document field, as in `jsGE`. -/
def jsLE (v : JVal) (c : ℚ) : Bool :=
  match v with
  | JVal.num q => decide (q ≤ c)
  | _ => false

/-- JS `v || 0`: the value itself when truthy, otherwise the number 0.
Used for `recentHistory[...]?.total_funding || 0` in the forecast chart. -/
def orZero (v : JVal) : JVal :=
  if truthy v then v else JVal.num 0

/-- JS `v || null`: the value itself when truthy, otherwise `null`.
Used for `d.approved_funding || null` in the forecast chart. -/
def orNull (v : JVal) : JVal :=
  if truthy v then v else JVal.jnull

/- ## Number formatting (main.js lines 48-72) -/

/-- JS rounding to the nearest integer with ties away from zero, the
rounding used by `toFixed` and the Intl formatters (idealised over exact
rationals; binary floating-point artifacts are not modelled). -/
def jsRound (q : ℚ) : Int :=
  if q ≥ 0 then ⌊q + 1 / 2⌋ else -⌊-q + 1 / 2⌋

/-- Base-10 digits of `n`, least significant first, with fuel (the number
itself bounds the digit count), so the definition evaluates by kernel
reduction. -/
def digitsRevAux : Nat → Nat → List Nat
  | 0, _ => []
  | fuel + 1, n => if n = 0 then [] else n % 10 :: digitsRevAux fuel (n / 10)

/-- Base-10 digits of `n`, least significant first. -/
def digitsRev (n : Nat) : List Nat :=
  digitsRevAux n n

/-- Plain decimal numeral of a natural number. -/
def natDecimalStr (m : Nat) : String :=
  if m = 0 then "0" else String.mk (((digitsRev m).map Nat.digitChar).reverse)

/-- Plain decimal numeral of an integer. -/
def intDecimalStr (n : Int) : String :=
  (if n < 0 then "-" else "") ++ natDecimalStr n.natAbs

/-- JS `x.toFixed(1)`: decimal string with exactly one fraction digit. -/
def toFixed1 (q : ℚ) : String :=
  let m := jsRound (q * 10)
  (if m < 0 then "-" else "") ++ natDecimalStr (m.natAbs / 10) ++ "." ++
    natDecimalStr (m.natAbs % 10)

/-- JS `x.toFixed(0)`: decimal string of the rounded integer. -/
def toFixed0 (q : ℚ) : String :=
  intDecimalStr (jsRound q)

/-- The number denoted by a least-significant-first digit list. -/
def valLSB (l : List Nat) : Nat :=
  l.foldr (fun d acc => acc * 10 + d) 0

/-- Insert a `'.'` thousands separator after every third character of a
least-significant-first character list, as the de-DE locale groups
integer digits. -/
def dotRev : List Char → List Char
  | a :: b :: c :: d :: rest => a :: b :: c :: '.' :: dotRev (d :: rest)
  | l => l

/-- A natural number rendered with de-DE thousands grouping (`1234567` to
`"1.234.567"`). -/
def natGrouped (m : Nat) : String :=
  if m = 0 then "0"
  else String.mk ((dotRev ((digitsRev m).map Nat.digitChar)).reverse)

/-- `formatNumber` from main.js at `compact = false` (the default, which is
what every call covered by the claims uses): the de-DE locale integer
format, i.e. thousands grouped with `'.'`.  The compact branch (Intl
compact notation, only reachable when the caller passes `true`) is not
modelled. -/
def formatNumber (value : Int) : String :=
  (if value < 0 then "-" else "") ++ natGrouped value.natAbs

/-- Reads back a de-DE grouped numeral: ignores `'.'` separators and
accumulates decimal digits. -/
def parseGroupedNat (s : String) : Nat :=
  s.data.foldl (fun acc c => if c = '.' then acc else acc * 10 + (c.toNat - 48)) 0

/-- The de-DE EUR currency format with 0 fraction digits that
`formatCurrency` delegates to when `compact` is false:
`"1.234 €"` (non-breaking space before the euro sign). -/
def intlCurrencyDeDE (value : ℚ) : String :=
  formatNumber (jsRound value) ++ " €"

/-- `formatCurrency` from main.js lines 48-62: compact magnitude brackets
checked in descending order, otherwise the de-DE EUR locale formatter. -/
def formatCurrency (value : ℚ) (compact : Bool) : String :=
  if compact then
    if value ≥ 10 ^ 12 then "€" ++ toFixed1 (value / 10 ^ 12) ++ "T"
    else if value ≥ 10 ^ 9 then "€" ++ toFixed1 (value / 10 ^ 9) ++ "B"
    else if value ≥ 10 ^ 6 then "€" ++ toFixed1 (value / 10 ^ 6) ++ "M"
    else if value ≥ 10 ^ 3 then "€" ++ toFixed0 (value / 10 ^ 3) ++ "K"
    else "€" ++ toFixed0 value
  else intlCurrencyDeDE value

/-- `truncateLabel` from main.js lines 1427-1430. -/
def truncateLabel (label : String) (maxLength : Nat) : String :=
  if label.length > maxLength then (label.take maxLength) ++ "..." else label

/- ## The loaded JSON documents (globalData, main.js lines 74-120) -/

/-- A field of a drill-down trend-data object: either a scalar JS value or
an array of objects (the `yearly` series).  Reading an absent field gives
`scalar undef`. -/
inductive TField where
  | scalar (v : JVal)
  | list (l : List JObj)
deriving DecidableEq

/-- A drill-down trend-data object (one value of `entityTrends.states`,
`.cities`, `.recipients` or `keywordTrends.keywords`): an association
list from field names to fields. -/
abbrev TrendObj := List (String × TField)

/-- Property read on a trend-data object. -/
def getTField (o : TrendObj) (k : String) : TField :=
  match o.find? (fun p => p.1 == k) with
  | some p => p.2
  | none => TField.scalar JVal.undef

/-- JS object key lookup on a string-keyed map document
(`entityTrends.states[name]` etc.): the stored value, or absence. -/
def jsLookup {α : Type} (m : List (String × α)) (k : String) : Option α :=
  match m.find? (fun p => p.1 == k) with
  | some p => some p.2
  | none => none

/-- `summary_stats.json`: run metadata read by `updateOverviewCards`. -/
structure SummaryStats where
  total_funding : ℚ
  total_projects : Int
  unique_recipients : Int
  avg_project_funding : ℚ
deriving DecidableEq

/-- `ministry_funding.json`. -/
structure MinistryDoc where
  ministries : List JObj
deriving DecidableEq

/-- The `international` sub-object of `geographic_distribution.json`;
`countries` may be absent. -/
structure IntlData where
  countries : Option (List JObj)
deriving DecidableEq

/-- `geographic_distribution.json`; `international` may be absent. -/
structure GeographicDoc where
  states : List JObj
  top_cities : List JObj
  international : Option IntlData
deriving DecidableEq

/-- `temporal_trends.json`; `monthly_distribution` and
`decade_ministry_share` may be absent (the source guards both with
`|| []` / `|| ` an empty object). -/
structure TemporalDoc where
  yearly_totals : List JObj
  monthly_distribution : Option (List JObj)
  decade_ministry_share : Option (List (String × List JObj))
deriving DecidableEq

/-- `top_recipients.json`. -/
structure RecipientsDoc where
  top_by_funding : List JObj
  top_by_count : List JObj
deriving DecidableEq

/-- `topic_analysis.json`. -/
structure TopicsDoc where
  classifications : List JObj
  keywords : List JObj
deriving DecidableEq

/-- `duration_analysis.json`. -/
structure DurationDoc where
  distribution : List JObj
deriving DecidableEq

/-- `funding_types.json`. -/
structure FundingTypesDoc where
  funding_types : List JObj
  funding_profiles : List JObj
deriving DecidableEq

/-- `joint_projects.json`. -/
structure JointProjectsDoc where
  summary : JObj
deriving DecidableEq

/-- `projekttraeger.json`. -/
structure ProjekttraegerDoc where
  projekttraeger : List JObj
deriving DecidableEq

/-- `keyword_trends.json`: the drill-down document for keywords. -/
structure KeywordTrendsDoc where
  keywords : List (String × TrendObj)
deriving DecidableEq

/-- `entity_trends.json`: the drill-down document for states, cities and
recipients. -/
structure EntityTrendsDoc where
  states : List (String × TrendObj)
  cities : List (String × TrendObj)
  recipients : List (String × TrendObj)
deriving DecidableEq

/-- `funding_forecast.json`. -/
structure ForecastDoc where
  current_year : ℚ
  forecast : List JObj
deriving DecidableEq

/-- The `globalData` store after a successful load (main.js lines 106-120). -/
structure GlobalData where
  summary : SummaryStats
  ministry : MinistryDoc
  geographic : GeographicDoc
  temporal : TemporalDoc
  recipients : RecipientsDoc
  topics : TopicsDoc
  duration : DurationDoc
  fundingTypes : FundingTypesDoc
  jointProjects : JointProjectsDoc
  projekttraeger : ProjekttraegerDoc
  keywordTrends : KeywordTrendsDoc
  entityTrends : EntityTrendsDoc
  forecast : ForecastDoc
deriving DecidableEq

/- ## Data loading (main.js lines 79-133) -/

/-- The thirteen fixed file names fetched by `loadData`
(main.js lines 80-94). -/
def loadDataFiles : List String :=
  ["summary_stats.json",
   "ministry_funding.json",
   "geographic_distribution.json",
   "temporal_trends.json",
   "top_recipients.json",
   "topic_analysis.json",
   "duration_analysis.json",
   "funding_types.json",
   "joint_projects.json",
   "projekttraeger.json",
   "keyword_trends.json",
   "entity_trends.json",
   "funding_forecast.json"]

/-- The URLs `loadData` fetches: each file name under `data/`, and nothing
else (main.js line 98). -/
def fetchTargets : List String :=
  loadDataFiles.map (fun f => "data/" ++ f)

/-- `Promise.all` over fetch results: the list of documents when every
fetch succeeded, otherwise the first rejection wins and nothing is
produced. -/
def promiseAll {α : Type} : List (Option α) → Option (List α)
  | [] => some []
  | none :: _ => none
  | some v :: rest =>
    match promiseAll rest with
    | some vs => some (v :: vs)
    | none => none

/-- What the page shows after `loadData`: either the dashboard built from
all thirteen documents, or the error page (the catch block replaces the
whole main-content area, so no chart is rendered). -/
inductive LoadOutcome (α : Type) where
  | dashboard (docs : List α)
  | errorPage
deriving DecidableEq

/-- `loadData` (main.js lines 96-133): all-or-nothing loading.  If every
fetch succeeds the dashboard is built from the results; if any single
fetch fails, the catch block replaces the page with the error card and no
chart is rendered. -/
def loadData {α : Type} (results : List (Option α)) : LoadOutcome α :=
  match promiseAll results with
  | some docs => LoadOutcome.dashboard docs
  | none => LoadOutcome.errorPage

/- ## Chart construction (the `data` part of each Chart config).
Colors, fonts and axis options are presentation constants with no data
dependence and are not modelled; tooltip and click callbacks are modelled
separately where a claim refers to them. -/

/-- The data a chart is built from: its labels and its datasets' value
series, in source order.  A `jnull` entry is the literal `null` the
source places in a series; `undef` is a read of an absent field. -/
structure ChartData where
  labels : List JVal
  datasets : List (List JVal)
deriving DecidableEq

/-- Stable insertion into a list sorted by `le`. -/
def insertSorted {α : Type} (le : α → α → Bool) (x : α) : List α → List α
  | [] => [x]
  | y :: ys => if le x y then x :: y :: ys else y :: insertSorted le x ys

/-- Stable sort by `le`, modelling JS `Array.prototype.sort` with a
comparator (modern engines sort stably). -/
def sortByLe {α : Type} (le : α → α → Bool) (l : List α) : List α :=
  l.foldr (insertSorted le) []

/-- Code-unit-wise string order, modelling the default JS `sort()`
comparison on strings. -/
def charListLe : List Char → List Char → Bool
  | [], _ => true
  | _ :: _, [] => false
  | a :: as, b :: bs =>
    if a.val < b.val then true
    else if b.val < a.val then false
    else charListLe as bs

/-- String order for JS default `sort()`. -/
def strLe (a b : String) : Bool :=
  charListLe a.data b.data

/-- Deduplication keeping the first occurrence of each element in place,
modelling JS `Set` insertion order. -/
def firstDedup {α : Type} [BEq α] : List α → List α
  | [] => []
  | a :: rest => a :: (firstDedup rest).filter (fun x => !(x == a))

/-- `createMinistryChart` (main.js lines 185-231): labels are ministry
codes, one dataset of total funding. -/
def createMinistryChart (g : GlobalData) : ChartData :=
  let data := g.ministry.ministries
  { labels := data.map (fun d => getField d "code"),
    datasets := [data.map (fun d => getField d "total_funding")] }

/-- Result of `createInternationalChart`: either the replacement message
or a chart. -/
inductive IntlRender where
  | message (s : String)
  | chart (c : ChartData)
deriving DecidableEq

/-- `createInternationalChart` (main.js lines 234-288): when the
international data or its country list is missing or empty, the chart
area is replaced by the no-data message and no chart is constructed;
otherwise the top 15 countries are charted. -/
def createInternationalChart (g : GlobalData) : IntlRender :=
  match g.geographic.international with
  | none => IntlRender.message "No international funding data available"
  | some intlData =>
    match intlData.countries with
    | none => IntlRender.message "No international funding data available"
    | some [] => IntlRender.message "No international funding data available"
    | some cs =>
      let data := cs.take 15
      IntlRender.chart
        { labels := data.map (fun d => getField d "name"),
          datasets := [data.map (fun d => getField d "total_funding")] }

/-- `createGeoChart` (main.js lines 291-378), data part: the first 16
states, in per-capita mode filtered to truthy `per_capita_funding` and
sorted descending by it. -/
def createGeoChart (g : GlobalData) (mode : String) : ChartData :=
  let rawData := g.geographic.states.take 16
  let data :=
    if mode = "percapita" then
      sortByLe
        (fun a b =>
          decide (asNum (getField b "per_capita_funding") ≤ asNum (getField a "per_capita_funding")))
        (rawData.filter (fun d => truthy (getField d "per_capita_funding")))
    else rawData
  { labels := data.map (fun d => getField d "name"),
    datasets :=
      [if mode = "percapita" then data.map (fun d => getField d "per_capita_funding")
       else data.map (fun d => getField d "total_funding")] }

/-- The click handler of the geo chart (main.js lines 351-359): a click on
the bar for `stateName` in total mode opens the state drill-down only
when `entityTrends.states` has that exact key. -/
def geoChartClickOpens (g : GlobalData) (mode : String) (stateName : String) : Bool :=
  mode = "total" && (jsLookup g.entityTrends.states stateName).isSome

/-- The hard-coded current year used to bucket temporal ranges
(main.js line 399: `const currentYear = 2025`). -/
def currentYear : ℚ := 2025

/-- The entries of `yearly_totals` kept for a given range button
(main.js lines 396-404): `recent` keeps years from `currentYear - 20`,
`decade` from `currentYear - 10`, anything else keeps all. -/
def temporalData (g : GlobalData) (range : String) : List JObj :=
  let data := g.temporal.yearly_totals
  if range = "recent" then data.filter (fun d => jsGE (getField d "year") (currentYear - 20))
  else if range = "decade" then data.filter (fun d => jsGE (getField d "year") (currentYear - 10))
  else data

/- `createForecastChart` (main.js lines 482-529): the source builds its five
series as local constants; each is mirrored by a top-level definition. -/

/-- `recentHistory` (main.js line 488): the last 10 years of historical
data up to the forecast document's `current_year`. -/
def recentHistoryOf (g : GlobalData) : List JObj :=
  g.temporal.yearly_totals.filter
    (fun d => jsGE (getField d "year") (g.forecast.current_year - 10) &&
              jsLE (getField d "year") g.forecast.current_year)

/-- `allYears` (main.js lines 492-495): historical years then forecast
years. -/
def forecastAllYears (g : GlobalData) : List JVal :=
  (recentHistoryOf g).map (fun d => getField d "year") ++
    g.forecast.forecast.map (fun d => getField d "year")

/-- `historicalFunding` (main.js lines 498-501): historical totals with
`null` for the forecast years. -/
def historicalFunding (g : GlobalData) : List JVal :=
  (recentHistoryOf g).map (fun d => getField d "total_funding") ++
    g.forecast.forecast.map (fun _ => JVal.jnull)

/-- `lastHistoricalValue` (main.js line 504):
`recentHistory[recentHistory.length - 1]?.total_funding || 0`. -/
def lastHistoricalValue (g : GlobalData) : JVal :=
  orZero (match (recentHistoryOf g).getLast? with
          | some d => getField d "total_funding"
          | none => JVal.undef)

/-- `predictedFunding` (main.js lines 505-509): `null` for every windowed
historical year but the last, the last historical value there, then the
forecast's predicted values. -/
def predictedFunding (g : GlobalData) : List JVal :=
  (recentHistoryOf g).dropLast.map (fun _ => JVal.jnull) ++ [lastHistoricalValue g] ++
    g.forecast.forecast.map (fun d => getField d "predicted_funding")

/-- `upperBound` (main.js lines 512-516). -/
def upperBound (g : GlobalData) : List JVal :=
  (recentHistoryOf g).dropLast.map (fun _ => JVal.jnull) ++ [lastHistoricalValue g] ++
    g.forecast.forecast.map (fun d => getField d "upper_bound")

/-- `lowerBound` (main.js lines 518-522). -/
def lowerBound (g : GlobalData) : List JVal :=
  (recentHistoryOf g).dropLast.map (fun _ => JVal.jnull) ++ [lastHistoricalValue g] ++
    g.forecast.forecast.map (fun d => getField d "lower_bound")

/-- `approvedFunding` (main.js lines 525-528): `null` for every historical
year, then `approved_funding || null` per forecast entry. -/
def approvedFunding (g : GlobalData) : List JVal :=
  (recentHistoryOf g).map (fun _ => JVal.jnull) ++
    g.forecast.forecast.map (fun d => orNull (getField d "approved_funding"))

/-- `createForecastChart` (main.js lines 482-529): stitches the forecast
series onto the last windowed historical point.  The five datasets are,
in source order: historical funding, predicted funding, upper bound,
lower bound, already-approved funding. -/
def createForecastChart (g : GlobalData) : ChartData :=
  { labels := forecastAllYears g,
    datasets := [historicalFunding g, predictedFunding g, upperBound g, lowerBound g,
                 approvedFunding g] }

/-- `createTemporalChart` (main.js lines 382-479): the `forecast` range
delegates to the forecast chart; the other ranges chart the filtered
yearly totals with a funding and a project-count dataset. -/
def createTemporalChart (g : GlobalData) (range : String) : ChartData :=
  if range = "forecast" then createForecastChart g
  else
    let data := temporalData g range
    { labels := data.map (fun d => getField d "year"),
      datasets := [data.map (fun d => getField d "total_funding"),
                   data.map (fun d => getField d "project_count")] }

/-- `createMonthlyChart` (main.js lines 685-749): a missing or empty
`monthly_distribution` returns without constructing a chart. -/
def createMonthlyChart (g : GlobalData) : Option ChartData :=
  let data := g.temporal.monthly_distribution.getD []
  if data = [] then none
  else some
    { labels := data.map (fun d => getField d "month_name"),
      datasets := [data.map (fun d => getField d "project_count"),
                   data.map (fun d => getField d "total_funding")] }

/-- `createDecadeMinistryChart` (main.js lines 753-820): decades are the
sorted keys of `decade_ministry_share`, ministries are collected in first
occurrence order, and each dataset value is the entry's `share_pct`
(0 when the decade has no entry for the ministry). -/
def createDecadeMinistryChart (g : GlobalData) : ChartData :=
  let decadeData := g.temporal.decade_ministry_share.getD []
  let decades := sortByLe strLe (decadeData.map (fun p => p.1))
  let ministries := firstDedup ((decadeData.map (fun p => p.2)).flatten.map
    (fun e => getField e "ministry"))
  { labels := decades.map (fun d => JVal.str (d ++ "s")),
    datasets := ministries.map (fun m =>
      decades.map (fun dec =>
        let decadeInfo := (jsLookup decadeData dec).getD []
        match decadeInfo.find? (fun e => getField e "ministry" == m) with
        | some ministryInfo => getField ministryInfo "share_pct"
        | none => JVal.num 0)) }

/-- `createRecipientChart` (main.js lines 823-869). -/
def createRecipientChart (g : GlobalData) : ChartData :=
  let data := g.recipients.top_by_funding.take 10
  { labels := data.map (fun d => JVal.str (truncateLabel (asStr (getField d "name")) 30)),
    datasets := [data.map (fun d => getField d "total_funding")] }

/-- The rendering output of `createFundingTypeChart`: the chart data plus
the tooltip label of each slice, which shows the slice's share of the
grand total. -/
structure FundingTypeRender where
  chart : ChartData
  tooltipLabels : List String
deriving DecidableEq

/-- `createFundingTypeChart` (main.js lines 872-904): the chart data from
the top five funding types, and the tooltip labels (line 898), whose
percentage divides by `globalData.summary.total_funding` - a read of a
second primary document, `summary_stats`. -/
def createFundingTypeChart (g : GlobalData) : FundingTypeRender :=
  let data := g.fundingTypes.funding_types.take 5
  { chart :=
      { labels := data.map (fun d => JVal.str (truncateLabel (asStr (getField d "name")) 25)),
        datasets := [data.map (fun d => getField d "total_funding")] },
    tooltipLabels := data.map (fun d =>
      formatCurrency (asNum (getField d "total_funding")) false ++ " (" ++
        toFixed1 (asNum (getField d "total_funding") / g.summary.total_funding * 100) ++
        "%)") }

/-- `createDurationChart` (main.js lines 907-948). -/
def createDurationChart (g : GlobalData) : ChartData :=
  let data := g.duration.distribution
  { labels := data.map (fun d => getField d "range"),
    datasets := [data.map (fun d => getField d "count")] }

/-- `createTopicChart` (main.js lines 951-998): labels fall back from
`description` to `code`. -/
def createTopicChart (g : GlobalData) : ChartData :=
  let data := g.topics.classifications.take 10
  { labels := data.map (fun d =>
      JVal.str (truncateLabel
        (if truthy (getField d "description") then asStr (getField d "description")
         else asStr (getField d "code")) 40)),
    datasets := [data.map (fun d => getField d "total_funding")] }

/-- `createJointChart` (main.js lines 1001-1036). -/
def createJointChart (g : GlobalData) : ChartData :=
  let data := g.jointProjects.summary
  { labels := [JVal.str "Verbundprojekt (Joint)", JVal.str "Individual Projects"],
    datasets := [[getField data "joint_funding", getField data "individual_funding"]] }

/-- `createProjekttraegerChart` (main.js lines 1039-1086). -/
def createProjekttraegerChart (g : GlobalData) : ChartData :=
  let data := g.projekttraeger.projekttraeger.take 12
  { labels := data.map (fun d => getField d "code"),
    datasets := [data.map (fun d => getField d "total_funding")] }

/-- `createFoerderprofilChart` (main.js lines 1089-1127). -/
def createFoerderprofilChart (g : GlobalData) : ChartData :=
  let data := g.fundingTypes.funding_profiles.take 6
  { labels := data.map (fun d => JVal.str (truncateLabel (asStr (getField d "name")) 30)),
    datasets := [data.map (fun d => getField d "total_funding")] }

/-- `createCityChart` (main.js lines 1130-1188), data part. -/
def createCityChart (g : GlobalData) : ChartData :=
  let data := g.geographic.top_cities.take 15
  { labels := data.map (fun d => getField d "city"),
    datasets := [data.map (fun d => getField d "total_funding")] }

/-- The click handler of the city chart (main.js lines 1162-1169): a click
on the bar for `cityName` opens the city drill-down only when
`entityTrends.cities` has that exact key. -/
def cityChartClickOpens (g : GlobalData) (cityName : String) : Bool :=
  (jsLookup g.entityTrends.cities cityName).isSome

/-- One keyword tag of the keywords cloud. -/
structure KeywordTag where
  word : String
  sizeClass : String
  clickable : Bool
deriving DecidableEq

/-- `createKeywordsCloud` (main.js lines 1191-1213): the first 50 keywords
sized by count ratio; a tag is clickable (wired to the keyword drill-down)
only when `keywordTrends.keywords` has the word as an exact key. -/
def createKeywordsCloud (g : GlobalData) : List KeywordTag :=
  let keywords := g.topics.keywords.take 50
  let maxCount := (keywords.map (fun k => asNum (getField k "count"))).foldr max 0
  keywords.map (fun keyword =>
    let r := asNum (getField keyword "count") / maxCount
    let sizeClass :=
      if r > 7 / 10 then "keyword-xlarge"
      else if r > 4 / 10 then "keyword-large"
      else if r > 2 / 10 then "keyword-medium"
      else "keyword-small"
    { word := asStr (getField keyword "word"),
      sizeClass := sizeClass,
      clickable := (jsLookup g.keywordTrends.keywords (asStr (getField keyword "word"))).isSome })

/-- One row of the recipients table; `name` is the document's full
recipient name (used for the drill-down lookup), `display` the truncated
text shown in the cell. -/
structure RecipientRow where
  rank : Nat
  name : String
  display : String
  total_funding : JVal
  project_count : JVal
  avg_funding : ℚ
  clickable : Bool
deriving DecidableEq

/-- `populateRecipientsTable` (main.js lines 1365-1390): the top 20 rows by
the chosen sort; a row is clickable (wired to the recipient drill-down)
only when `entityTrends.recipients` has the exact name as a key; the
average falls back to `total_funding / project_count` when the document
has no truthy `avg_funding`. -/
def populateRecipientsTable (g : GlobalData) (sortBy : String) : List RecipientRow :=
  let data :=
    if sortBy = "funding" then g.recipients.top_by_funding.take 20
    else g.recipients.top_by_count.take 20
  (List.range data.length).zip data |>.map (fun p =>
    let recipient := p.2
    let nm := asStr (getField recipient "name")
    { rank := p.1 + 1,
      name := nm,
      display := truncateLabel nm 50,
      total_funding := getField recipient "total_funding",
      project_count := getField recipient "project_count",
      avg_funding :=
        if truthy (getField recipient "avg_funding") then asNum (getField recipient "avg_funding")
        else asNum (getField recipient "total_funding") / asNum (getField recipient "project_count"),
      clickable := (jsLookup g.entityTrends.recipients nm).isSome })

/- ## Overview cards (main.js lines 159-167) -/

/-- The four overview card texts. -/
structure OverviewCards where
  totalFunding : String
  totalProjects : String
  uniqueRecipients : String
  avgFunding : String
deriving DecidableEq

/-- `updateOverviewCards` (main.js lines 159-167): the unique-recipients
card shows `formatNumber(summary.unique_recipients - 1) + '+'`, flagging
that the anonymization sentinel is not one named recipient and the count
is a minimum. -/
def updateOverviewCards (g : GlobalData) : OverviewCards :=
  { totalFunding := formatCurrency g.summary.total_funding true,
    totalProjects := formatNumber g.summary.total_projects,
    uniqueRecipients := formatNumber (g.summary.unique_recipients - 1) ++ "+",
    avgFunding := formatCurrency g.summary.avg_project_funding true }

/- ## Drill-down modal (main.js lines 1220-1332) -/

/-- The static modal content set before the drill-down chart is built. -/
structure ModalContent where
  title : String
  subtitle : String
  totalProjects : TField
  totalFunding : TField
deriving DecidableEq

/-- Outcome of `showDrilldown`: an unknown type or a missing entry logs an
error and returns without showing the modal; otherwise the modal is shown
and the chart built from the entry's `yearly` series (`none` for the
chart models the TypeError thrown when `yearly` is not an array). -/
inductive DrillResult where
  | unknownType (msg : String)
  | noData (msg : String)
  | shown (modal : ModalContent) (chart : Option ChartData)
deriving DecidableEq

/-- The trend-data entry `showDrilldown` looks up for each type
(main.js lines 1223-1247): an exact key lookup in the drill-down
documents. -/
def drillData (g : GlobalData) (ty name : String) : Option TrendObj :=
  if ty = "keyword" then jsLookup g.keywordTrends.keywords name
  else if ty = "state" then jsLookup g.entityTrends.states name
  else if ty = "city" then jsLookup g.entityTrends.cities name
  else if ty = "recipient" then jsLookup g.entityTrends.recipients name
  else none

/-- The modal title per type (main.js lines 1226-1242); for cities the
state is appended when the entry carries a truthy `state` field.  (The
source computes the title before the `!data` check, but it is only
observable when the entry exists, so it is computed on the entry here.) -/
def drillTitle (ty name : String) (data : TrendObj) : String :=
  if ty = "keyword" then "\"" ++ name ++ "\""
  else if ty = "city" then
    match getTField data "state" with
    | TField.scalar (JVal.str s) => if s = "" then name else name ++ " (" ++ s ++ ")"
    | _ => name
  else if ty = "recipient" then
    if name.length > 50 then (name.take 47) ++ "..." else name
  else name

/-- The modal subtitle per type (main.js lines 1227-1242). -/
def drillSubtitle (ty : String) : String :=
  if ty = "keyword" then "Projects containing this keyword (includes compound words)"
  else if ty = "state" then "State funding trends over time"
  else if ty = "city" then "City funding trends over time"
  else "Recipient funding trends over time"

/-- The modal content `showDrilldown` sets (main.js lines 1254-1258). -/
def drillModal (ty name : String) (data : TrendObj) : ModalContent :=
  { title := drillTitle ty name data,
    subtitle := drillSubtitle ty,
    totalProjects := getTField data "total_projects",
    totalFunding := getTField data "total_funding" }

/-- The drill-down chart data (main.js lines 1269-1293), built from the
entry's `yearly` series; `none` models the TypeError thrown when `yearly`
is not an array. -/
def drillChart (data : TrendObj) : Option ChartData :=
  match getTField data "yearly" with
  | TField.list yl =>
    some { labels := yl.map (fun d => getField d "year"),
           datasets := [yl.map (fun d => getField d "funding"),
                        yl.map (fun d => getField d "projects")] }
  | TField.scalar _ => none

/-- `showDrilldown` (main.js lines 1220-1332). -/
def showDrilldown (g : GlobalData) (ty name : String) : DrillResult :=
  if ty = "keyword" || ty = "state" || ty = "city" || ty = "recipient" then
    match drillData g ty name with
    | none => DrillResult.noData ("No trend data for " ++ ty ++ ": " ++ name)
    | some data => DrillResult.shown (drillModal ty name data) (drillChart data)
  else DrillResult.unknownType ("Unknown drilldown type: " ++ ty)

/- ## Aggregation engine (spec-modelled) -/

/-- Modelled from the spec: the aggregation engine's input record (src/
contains only the presentation layer; `analyze_funding.py`, the
ingestion and aggregation code, is not under src/).  One Record per
funding decision line, per the data model of the spec. -/
structure Record where
  ministry_code : String
  sponsor_code : String
  recipient_name : String
  topic_code : String
  amount : ℚ
  year : Int
  state : String
  city : String
  funding_type : String
  is_joint_project : Bool
deriving DecidableEq

/-- One group of an aggregation pass's output document. -/
structure GroupRow (K : Type) where
  key : K
  total_funding : ℚ
  project_count : Nat
deriving DecidableEq

/-- Modelled from the spec: a grouping aggregation pass — a pure function
from the Record sequence to one row per distinct grouping key, carrying
the sum of amounts and the count of records in that group. -/
def aggregationPass {K : Type} [DecidableEq K] (key : Record → K) (rs : List Record) :
    List (GroupRow K) :=
  ((rs.map key).dedup).map (fun k =>
    { key := k,
      total_funding := ((rs.filter (fun r => decide (key r = k))).map Record.amount).sum,
      project_count := (rs.filter (fun r => decide (key r = k))).length })

/-- Modelled from the spec: the grand totals of the `summary_stats`
document — total funding is the sum of all record amounts, total
projects the number of records. -/
structure SummaryTotals where
  total_funding : ℚ
  total_projects : Nat
deriving DecidableEq

/-- Modelled from the spec: computing `summary_stats` grand totals. -/
def summaryStats (rs : List Record) : SummaryTotals :=
  { total_funding := (rs.map Record.amount).sum,
    total_projects := rs.length }

/- ## Sample documents used as concrete instances -/

/-- Three concrete records across two ministries. -/
def sampleRecords : List Record :=
  [{ ministry_code := "BMV", sponsor_code := "PT1", recipient_name := "A", topic_code := "T1",
     amount := 10, year := 2020, state := "Bayern", city := "M", funding_type := "Zuschuss",
     is_joint_project := false },
   { ministry_code := "BMV", sponsor_code := "PT1", recipient_name := "B", topic_code := "T2",
     amount := 20, year := 2021, state := "Berlin", city := "B", funding_type := "Zuschuss",
     is_joint_project := true },
   { ministry_code := "BMWE", sponsor_code := "PT2", recipient_name := "C", topic_code := "T1",
     amount := 30, year := 2022, state := "Hessen", city := "F", funding_type := "Darlehen",
     is_joint_project := false }]

/-- A fully empty document store. -/
def emptyGD : GlobalData :=
  { summary := { total_funding := 0, total_projects := 0, unique_recipients := 0,
                 avg_project_funding := 0 },
    ministry := { ministries := [] },
    geographic := { states := [], top_cities := [], international := none },
    temporal := { yearly_totals := [], monthly_distribution := none,
                  decade_ministry_share := none },
    recipients := { top_by_funding := [], top_by_count := [] },
    topics := { classifications := [], keywords := [] },
    duration := { distribution := [] },
    fundingTypes := { funding_types := [], funding_profiles := [] },
    jointProjects := { summary := [] },
    projekttraeger := { projekttraeger := [] },
    keywordTrends := { keywords := [] },
    entityTrends := { states := [], cities := [], recipients := [] },
    forecast := { current_year := 2025, forecast := [] } }

/-- A yearly-totals entry as a JSON object. -/
def yearEntry (y tf pc : ℚ) : JObj :=
  [("year", JVal.num y), ("total_funding", JVal.num tf), ("project_count", JVal.num pc)]

/-- A forecast entry as a JSON object. -/
def forecastEntry (y pf ub lb af : ℚ) : JObj :=
  [("year", JVal.num y), ("predicted_funding", JVal.num pf), ("upper_bound", JVal.num ub),
   ("lower_bound", JVal.num lb), ("approved_funding", JVal.num af)]

/-- A store with one observed year and one forecast year. -/
def sampleGD : GlobalData :=
  { emptyGD with
      summary := { total_funding := 10 ^ 9, total_projects := 1500, unique_recipients := 1000,
                   avg_project_funding := 666666 },
      temporal := { yearly_totals := [yearEntry 2024 5 7], monthly_distribution := none,
                    decade_ministry_share := none },
      forecast := { current_year := 2024, forecast := [forecastEntry 2025 6 8 4 2] } }

/-- Like `sampleGD` but with a different `total_funding` in the temporal
document (the forecast document is unchanged). -/
def sampleGD2 : GlobalData :=
  { sampleGD with
      temporal := { yearly_totals := [yearEntry 2024 9 7], monthly_distribution := none,
                    decade_ministry_share := none } }

/-- Like `sampleGD` but with a different predicted value in the forecast
document (the temporal document is unchanged). -/
def sampleGD3 : GlobalData :=
  { sampleGD with
      forecast := { current_year := 2024, forecast := [forecastEntry 2025 60 80 40 20] } }

/-- A concrete drill-down trend entry. -/
def bayernTrend : TrendObj :=
  [("total_projects", TField.scalar (JVal.num 3)),
   ("total_funding", TField.scalar (JVal.num 9)),
   ("yearly", TField.list
     [[("year", JVal.num 2020), ("funding", JVal.num 9), ("projects", JVal.num 3)]])]

/-- A store whose one drill-down entry is the state `"Bayern"`. -/
def drillGD : GlobalData :=
  { emptyGD with
      entityTrends :=
        { states := [("Bayern", bayernTrend)], cities := [], recipients := [] } }

/-- `drillGD` with the `yearly` field of the entry stored under another
name. -/
def drillGDren : GlobalData :=
  { emptyGD with
      entityTrends :=
        { states :=
            [("Bayern",
              [("total_projects", TField.scalar (JVal.num 3)),
               ("total_funding", TField.scalar (JVal.num 9)),
               ("yearly_series", TField.list
                 [[("year", JVal.num 2020), ("funding", JVal.num 9),
                   ("projects", JVal.num 3)]])])],
          cities := [], recipients := [] } }

/-- A temporal entry with `total_funding` stored under another name. -/
def yearEntryRenTF : JObj :=
  [("year", JVal.num 2024), ("total_funding_x", JVal.num 5), ("project_count", JVal.num 7)]

/-- A temporal entry with `project_count` stored under another name. -/
def yearEntryRenPC : JObj :=
  [("year", JVal.num 2024), ("total_funding", JVal.num 5), ("project_count_x", JVal.num 7)]

/-- `sampleGD` with the temporal entry's `total_funding` renamed. -/
def sampleGDrenTF : GlobalData :=
  { sampleGD with
      temporal := { yearly_totals := [yearEntryRenTF], monthly_distribution := none,
                    decade_ministry_share := none } }

/-- `sampleGD` with the temporal entry's `project_count` renamed. -/
def sampleGDrenPC : GlobalData :=
  { sampleGD with
      temporal := { yearly_totals := [yearEntryRenPC], monthly_distribution := none,
                    decade_ministry_share := none } }

/-- A store with only a forecast document (empty history). -/
def fcGD : GlobalData :=
  { emptyGD with
      forecast := { current_year := 2024, forecast := [forecastEntry 2025 6 8 4 2] } }

/-- `fcGD` with the forecast entry's `upper_bound` renamed. -/
def fcGDrenUB : GlobalData :=
  { emptyGD with
      forecast := { current_year := 2024, forecast :=
        [[("year", JVal.num 2025), ("predicted_funding", JVal.num 6),
          ("upper_bound_x", JVal.num 8), ("lower_bound", JVal.num 4),
          ("approved_funding", JVal.num 2)]] } }

/-- `fcGD` with the forecast entry's `lower_bound` renamed. -/
def fcGDrenLB : GlobalData :=
  { emptyGD with
      forecast := { current_year := 2024, forecast :=
        [[("year", JVal.num 2025), ("predicted_funding", JVal.num 6),
          ("upper_bound", JVal.num 8), ("lower_bound_x", JVal.num 4),
          ("approved_funding", JVal.num 2)]] } }

/-- `fcGD` with the forecast entry's `approved_funding` renamed. -/
def fcGDrenAF : GlobalData :=
  { emptyGD with
      forecast := { current_year := 2024, forecast :=
        [[("year", JVal.num 2025), ("predicted_funding", JVal.num 6),
          ("upper_bound", JVal.num 8), ("lower_bound", JVal.num 4),
          ("approved_funding_x", JVal.num 2)]] } }

/-- A store with one decade-ministry share entry. -/
def decadeGD : GlobalData :=
  { emptyGD with
      temporal := { yearly_totals := [], monthly_distribution := none,
                    decade_ministry_share :=
                      some [("2010", [[("ministry", JVal.str "BMV"),
                                       ("share_pct", JVal.num 50)]])] } }

/-- A funding-type entry. -/
def ftEntry : JObj :=
  [("name", JVal.str "Zuschuss"), ("total_funding", JVal.num 5)]

/-- A store with one funding type and a grand total of 10. -/
def ftGD : GlobalData :=
  { emptyGD with
      summary := { total_funding := 10, total_projects := 0, unique_recipients := 0,
                   avg_project_funding := 0 },
      fundingTypes := { funding_types := [ftEntry], funding_profiles := [] } }

/-- `ftGD` with a different grand total in the summary document (the
funding-types document is unchanged). -/
def ftGD2 : GlobalData :=
  { ftGD with
      summary := { total_funding := 20, total_projects := 0, unique_recipients := 0,
                   avg_project_funding := 0 } }

/-- `decadeGD` with the entry's `share_pct` stored under another name. -/
def decadeGDren : GlobalData :=
  { emptyGD with
      temporal := { yearly_totals := [], monthly_distribution := none,
                    decade_ministry_share :=
                      some [("2010", [[("ministry", JVal.str "BMV"),
                                       ("share_percent", JVal.num 50)]])] } }

/- ## Lemmas: digits, grouping and the formatting round-trip -/

theorem digitsRevAux_lt_ten (fuel : Nat) : ∀ n, ∀ d ∈ digitsRevAux fuel n, d < 10 := by
  induction fuel with
  | zero => intro n d hd; simp [digitsRevAux] at hd
  | succ fuel ih =>
    intro n d hd
    by_cases h0 : n = 0
    · simp [digitsRevAux, h0] at hd
    · simp only [digitsRevAux, h0, if_false, List.mem_cons] at hd
      rcases hd with h1 | h2
      · omega
      · exact ih _ d h2

theorem valLSB_digitsRevAux (fuel : Nat) : ∀ n, n ≤ fuel → valLSB (digitsRevAux fuel n) = n := by
  induction fuel with
  | zero => intro n h; interval_cases n; simp [digitsRevAux, valLSB]
  | succ fuel ih =>
    intro n h
    by_cases h0 : n = 0
    · simp [digitsRevAux, h0, valLSB]
    · have hlt : n / 10 < n := Nat.div_lt_self (by omega) (by omega)
      have hdiv : n / 10 ≤ fuel := by omega
      have hrec := ih (n / 10) hdiv
      simp only [digitsRevAux, h0, if_false, valLSB, List.foldr_cons] at hrec ⊢
      omega

/-- The parse step of `parseGroupedNat`. -/
def parseStep (acc : Nat) (c : Char) : Nat :=
  if c = '.' then acc else acc * 10 + (c.toNat - 48)

theorem parseGroupedNat_eq_foldl (s : String) :
    parseGroupedNat s = s.data.foldl parseStep 0 := rfl

theorem foldr_dotRev (l : List Char) :
    (dotRev l).foldr (fun c acc => parseStep acc c) 0
      = l.foldr (fun c acc => parseStep acc c) 0 := by
  induction l using dotRev.induct with
  | case1 a b c d rest ih =>
    simp only [dotRev, List.foldr_cons, ih]
    simp [parseStep]
  | case2 l h1 =>
    rcases l with _ | ⟨a, _ | ⟨b, _ | ⟨c, _ | ⟨d, rest⟩⟩⟩⟩
    · rfl
    · rfl
    · rfl
    · rfl
    · exact absurd rfl (h1 a b c d rest)

theorem digitChar_ne_dot (d : Nat) (h : d < 10) : Nat.digitChar d ≠ '.' := by
  interval_cases d <;> decide

theorem digitChar_toNat_sub (d : Nat) (h : d < 10) : (Nat.digitChar d).toNat - 48 = d := by
  interval_cases d <;> decide

theorem foldr_map_digitChar (l : List Nat) (h : ∀ d ∈ l, d < 10) :
    (l.map Nat.digitChar).foldr (fun c acc => parseStep acc c) 0 = valLSB l := by
  induction l with
  | nil => rfl
  | cons d l ih =>
    have hd : d < 10 := h d (by simp)
    have hrest : ∀ x ∈ l, x < 10 := fun x hx => h x (by simp [hx])
    simp only [List.map_cons, List.foldr_cons, ih hrest]
    have h1 : valLSB (d :: l) = valLSB l * 10 + d := rfl
    rw [h1]
    simp [parseStep, digitChar_ne_dot d hd, digitChar_toNat_sub d hd]

theorem digitsRev_lt_ten (m : Nat) : ∀ d ∈ digitsRev m, d < 10 :=
  digitsRevAux_lt_ten m m

theorem valLSB_digitsRev (m : Nat) : valLSB (digitsRev m) = m :=
  valLSB_digitsRevAux m m le_rfl

theorem parseGroupedNat_natGrouped (m : Nat) : parseGroupedNat (natGrouped m) = m := by
  by_cases h0 : m = 0
  · subst h0; decide
  · have h2 : natGrouped m = String.mk ((dotRev ((digitsRev m).map Nat.digitChar)).reverse) := by
      simp [natGrouped, h0]
    rw [h2, parseGroupedNat_eq_foldl]
    show ((dotRev ((digitsRev m).map Nat.digitChar)).reverse).foldl parseStep 0 = m
    rw [List.foldl_reverse, foldr_dotRev,
      foldr_map_digitChar _ (digitsRev_lt_ten m), valLSB_digitsRev m]

theorem parseGroupedNat_formatNumber (m : Nat) :
    parseGroupedNat (formatNumber (m : Int)) = m := by
  unfold formatNumber
  rw [if_neg (by simp : ¬((m : Int) < 0)), Int.natAbs_ofNat]
  show (("" ++ natGrouped m : String).data).foldl parseStep 0 = m
  have hdata : ("" ++ natGrouped m : String).data = (natGrouped m).data := by
    simp [String.data_append]
  rw [hdata, ← parseGroupedNat_eq_foldl]
  exact parseGroupedNat_natGrouped m

/- ## Lemmas: fiberwise sums for the aggregation passes -/

theorem sum_map_ite_single {K M : Type} [DecidableEq K] [AddCommMonoid M]
    (ks : List K) (hnd : ks.Nodup) (x : K) (hx : x ∈ ks) (c : M) :
    (ks.map (fun k => if x = k then c else 0)).sum = c := by
  induction ks with
  | nil => cases hx
  | cons a ks ih =>
    rcases List.mem_cons.mp hx with rfl | hmem
    · have hzero : (ks.map (fun k => if x = k then c else 0)).sum = 0 := by
        apply List.sum_eq_zero
        intro y hy
        obtain ⟨k, hk, rfl⟩ := List.mem_map.mp hy
        have hne : x ≠ k := fun h => (List.nodup_cons.mp hnd).1 (h ▸ hk)
        simp [hne]
      simp [hzero]
    · have hne : x ≠ a := fun h => (List.nodup_cons.mp hnd).1 (h ▸ hmem)
      simp only [List.map_cons, List.sum_cons, if_neg hne, zero_add]
      exact ih (List.nodup_cons.mp hnd).2 hmem

theorem list_sum_map_add {K M : Type} [AddCommMonoid M] (l : List K) (f g : K → M) :
    (l.map (fun k => f k + g k)).sum = (l.map f).sum + (l.map g).sum := by
  induction l with
  | nil => simp
  | cons a l ih =>
    simp only [List.map_cons, List.sum_cons, ih]
    abel

theorem sum_fiberwise {R K M : Type} [DecidableEq K] [AddCommMonoid M]
    (ks : List K) (hnd : ks.Nodup) (l : List R) (key : R → K) (f : R → M)
    (hsub : ∀ r ∈ l, key r ∈ ks) :
    (ks.map (fun k => ((l.filter (fun r => decide (key r = k))).map f).sum)).sum
      = (l.map f).sum := by
  induction l with
  | nil => simp
  | cons a l ih =>
    have hpt : ∀ k, (((a :: l).filter (fun r => decide (key r = k))).map f).sum
        = (if key a = k then f a else 0)
          + ((l.filter (fun r => decide (key r = k))).map f).sum := by
      intro k
      by_cases h : key a = k
      · simp [List.filter_cons, h]
      · simp [List.filter_cons, h]
    simp only [hpt, list_sum_map_add]
    rw [sum_map_ite_single ks hnd (key a) (hsub a (by simp)) (f a),
      ih (fun r hr => hsub r (by simp [hr]))]
    simp

theorem length_as_sum {R : Type} (l : List R) :
    l.length = (l.map (fun _ => (1 : ℕ))).sum := by
  induction l with
  | nil => rfl
  | cons a l ih => simp only [List.length_cons, List.map_cons, List.sum_cons, ih]; omega

/- ## Claim theorems -/

/-- C1: for every loaded summary_stats document, the unique-recipients
card shows `formatNumber(summary.unique_recipients - 1)` followed by the
suffix `'+'`, so the shown numeral denotes exactly the document's
`unique_recipients` value minus one, marked as a minimum (`parseGroupedNat`
reads the de-DE grouped numeral back). -/
theorem updateOverviewCards_unique_recipients_minimum (g : GlobalData) :
    (updateOverviewCards g).uniqueRecipients
      = formatNumber (g.summary.unique_recipients - 1) ++ "+" ∧
    (1 ≤ g.summary.unique_recipients →
      (parseGroupedNat (formatNumber (g.summary.unique_recipients - 1)) : Int)
        = g.summary.unique_recipients - 1) := by
  constructor
  · rfl
  · intro h
    obtain ⟨m, hm⟩ : ∃ m : Nat, g.summary.unique_recipients - 1 = (m : Int) :=
      ⟨(g.summary.unique_recipients - 1).toNat, by omega⟩
    rw [hm, parseGroupedNat_formatNumber]

/-- Witness for C1 at a document with `unique_recipients = 1000`: the card
shows `"999+"` and the numeral parses back to 999. -/
theorem updateOverviewCards_unique_recipients_minimum_witness :
    (1 ≤ sampleGD.summary.unique_recipients) ∧
    (updateOverviewCards sampleGD).uniqueRecipients = "999+" ∧
    (parseGroupedNat (formatNumber (sampleGD.summary.unique_recipients - 1)) : Int)
      = sampleGD.summary.unique_recipients - 1 := by
  have h := updateOverviewCards_unique_recipients_minimum sampleGD
  refine ⟨by decide, ?_, h.2 (by decide)⟩
  rw [h.1]
  decide

/-- C4: `loadData` fetches exactly the thirteen fixed JSON documents under
`data/`, one per aggregation pass plus `summary_stats`, and no other
file. -/
theorem loadData_fetches_thirteen_fixed_files :
    loadDataFiles =
      ["summary_stats.json", "ministry_funding.json", "geographic_distribution.json",
       "temporal_trends.json", "top_recipients.json", "topic_analysis.json",
       "duration_analysis.json", "funding_types.json", "joint_projects.json",
       "projekttraeger.json", "keyword_trends.json", "entity_trends.json",
       "funding_forecast.json"] ∧
    loadDataFiles.length = 13 ∧
    loadDataFiles.Nodup ∧
    fetchTargets =
      ["data/summary_stats.json", "data/ministry_funding.json",
       "data/geographic_distribution.json", "data/temporal_trends.json",
       "data/top_recipients.json", "data/topic_analysis.json",
       "data/duration_analysis.json", "data/funding_types.json",
       "data/joint_projects.json", "data/projekttraeger.json",
       "data/keyword_trends.json", "data/entity_trends.json",
       "data/funding_forecast.json"] := by
  refine ⟨rfl, rfl, by decide, rfl⟩

/-- C5: an empty or missing `international.countries` list makes
`createInternationalChart` replace the chart area with the no-data
message and construct no chart, and an empty or missing
`monthly_distribution` makes `createMonthlyChart` return without a chart;
both functions are total, so neither throws on such input. -/
theorem degenerate_documents_no_data_path (g : GlobalData) :
    ((g.geographic.international = none ∨
      ∃ i, g.geographic.international = some i ∧
        (i.countries = none ∨ i.countries = some [])) →
      createInternationalChart g
        = IntlRender.message "No international funding data available") ∧
    ((g.temporal.monthly_distribution = none ∨ g.temporal.monthly_distribution = some []) →
      createMonthlyChart g = none) := by
  constructor
  · intro h
    rcases h with h | ⟨i, hi, hc⟩
    · simp [createInternationalChart, h]
    · rcases hc with hc | hc <;> simp [createInternationalChart, hi, hc]
  · intro h
    unfold createMonthlyChart
    rcases h with h | h <;> rw [h] <;> rfl

/-- Witness for C5 at the empty store: both degenerate paths are taken. -/
theorem degenerate_documents_no_data_path_witness :
    createInternationalChart emptyGD
      = IntlRender.message "No international funding data available" ∧
    createMonthlyChart emptyGD = none := by
  have h := degenerate_documents_no_data_path emptyGD
  exact ⟨h.1 (Or.inl rfl), h.2 (Or.inl rfl)⟩

/-- C7: the temporal range buckets use the hardcoded global
`currentYear = 2025` rather than an injected reference date; `recent`
keeps exactly the yearly entries with year at least 2005
(`currentYear - 20`), `decade` exactly those with year at least 2015
(`currentYear - 10`), and `all` keeps every entry. -/
theorem temporal_range_buckets (g : GlobalData) :
    currentYear = 2025 ∧
    temporalData g "recent"
      = g.temporal.yearly_totals.filter (fun d => jsGE (getField d "year") 2005) ∧
    temporalData g "decade"
      = g.temporal.yearly_totals.filter (fun d => jsGE (getField d "year") 2015) ∧
    temporalData g "all" = g.temporal.yearly_totals ∧
    (∀ range, range ≠ "forecast" →
      (createTemporalChart g range).labels
        = (temporalData g range).map (fun d => getField d "year")) := by
  refine ⟨rfl, ?_, ?_, rfl, ?_⟩
  · have h20 : currentYear - 20 = (2005 : ℚ) := by norm_num [currentYear]
    simp [temporalData, h20]
  · have h10 : currentYear - 10 = (2015 : ℚ) := by norm_num [currentYear]
    simp [temporalData, h10]
  · intro range hr
    unfold createTemporalChart
    rw [if_neg hr]

/-- C9: `formatCurrency` with `compact = true` selects exactly one
magnitude bracket, checked in descending order, so the effective brackets
partition the number line: T from 1e12, B on [1e9, 1e12), M on
[1e6, 1e9), K on [1e3, 1e6), and the plain rounded value below 1e3; with
`compact = false` it delegates to the de-DE EUR locale format with 0
fraction digits. -/
theorem formatCurrency_bracket_selection (v : ℚ) :
    (v ≥ 10 ^ 12 → formatCurrency v true = "€" ++ toFixed1 (v / 10 ^ 12) ++ "T") ∧
    (10 ^ 9 ≤ v ∧ v < 10 ^ 12 →
      formatCurrency v true = "€" ++ toFixed1 (v / 10 ^ 9) ++ "B") ∧
    (10 ^ 6 ≤ v ∧ v < 10 ^ 9 →
      formatCurrency v true = "€" ++ toFixed1 (v / 10 ^ 6) ++ "M") ∧
    (10 ^ 3 ≤ v ∧ v < 10 ^ 6 →
      formatCurrency v true = "€" ++ toFixed0 (v / 10 ^ 3) ++ "K") ∧
    (v < 10 ^ 3 → formatCurrency v true = "€" ++ toFixed0 v) ∧
    formatCurrency v false = intlCurrencyDeDE v := by
  refine ⟨?_, ?_, ?_, ?_, ?_, rfl⟩
  · intro h
    unfold formatCurrency
    rw [if_pos rfl, if_pos h]
  · intro h
    unfold formatCurrency
    rw [if_pos rfl]
    split_ifs with h1 h2 <;> first | rfl | (exfalso; linarith [h.1, h.2])
  · intro h
    unfold formatCurrency
    rw [if_pos rfl]
    split_ifs with h1 h2 h3 <;> first | rfl | (exfalso; linarith [h.1, h.2])
  · intro h
    unfold formatCurrency
    rw [if_pos rfl]
    split_ifs with h1 h2 h3 h4 <;> first | rfl | (exfalso; linarith [h.1, h.2])
  · intro h
    unfold formatCurrency
    rw [if_pos rfl]
    split_ifs with h1 h2 h3 h4 <;> first | rfl | (exfalso; linarith [h])

theorem toFixed1_five : toFixed1 5 = "5.0" := by
  unfold toFixed1
  have h : jsRound ((5 : ℚ) * 10) = 50 := by
    unfold jsRound
    rw [if_pos (by norm_num), Int.floor_eq_iff]
    constructor <;> norm_num
  rw [h]
  decide

/-- Witness for C9 at 5e9: the B bracket applies and yields `"€5.0B"`. -/
theorem formatCurrency_bracket_selection_witness :
    ((10 : ℚ) ^ 9 ≤ 5 * 10 ^ 9 ∧ (5 * 10 ^ 9 : ℚ) < 10 ^ 12) ∧
    formatCurrency (5 * 10 ^ 9) true = "€5.0B" := by
  have h := (formatCurrency_bracket_selection (5 * 10 ^ 9)).2.1
  refine ⟨⟨by norm_num, by norm_num⟩, ?_⟩
  rw [h ⟨by norm_num, by norm_num⟩]
  have hd : (5 * 10 ^ 9 : ℚ) / 10 ^ 9 = 5 := by norm_num
  rw [hd, toFixed1_five]
  decide

/-- C6 (spec-modelled: the aggregation engine is not under src/):
conservation — for every grouping pass over the same Record sequence, the
per-group `total_funding` values sum exactly (hence within any
floating-point tolerance) to `summary_stats.total_funding`, and the
per-group `project_count` values sum to `total_projects`. -/
theorem aggregationPass_conservation {K : Type} [DecidableEq K]
    (key : Record → K) (rs : List Record) :
    ((aggregationPass key rs).map GroupRow.total_funding).sum
      = (summaryStats rs).total_funding ∧
    ((aggregationPass key rs).map GroupRow.project_count).sum
      = (summaryStats rs).total_projects := by
  have hnd : ((rs.map key).dedup).Nodup := List.nodup_dedup _
  have hsub : ∀ r ∈ rs, key r ∈ (rs.map key).dedup :=
    fun r hr => List.mem_dedup.mpr (List.mem_map_of_mem key hr)
  constructor
  · unfold aggregationPass summaryStats
    rw [List.map_map]
    exact sum_fiberwise _ hnd rs key Record.amount hsub
  · unfold aggregationPass summaryStats
    rw [List.map_map]
    have h := sum_fiberwise _ hnd rs key (fun _ => (1 : ℕ)) hsub
    simp only [← length_as_sum] at h
    convert h using 2

/-- Witness for C6: a concrete three-record sequence grouped by ministry
sums to the concrete grand totals. -/
theorem aggregationPass_conservation_witness :
    ((aggregationPass Record.ministry_code sampleRecords).map GroupRow.total_funding).sum
      = (summaryStats sampleRecords).total_funding ∧
    ((aggregationPass Record.ministry_code sampleRecords).map GroupRow.project_count).sum
      = (summaryStats sampleRecords).total_projects ∧
    (summaryStats sampleRecords).total_funding = 60 ∧
    (summaryStats sampleRecords).total_projects = 3 := by
  have h := aggregationPass_conservation Record.ministry_code sampleRecords
  exact ⟨h.1, h.2, by norm_num [summaryStats, sampleRecords], by norm_num [summaryStats, sampleRecords]⟩

theorem orZero_num (q : ℚ) : orZero (JVal.num q) = JVal.num q := by
  by_cases h : q = 0
  · subst h; rfl
  · simp [orZero, truthy, h]

theorem stitched_series_nulls (rh : List JObj) (x : JVal) (B : List JVal) (i : Nat)
    (h : i + 1 < rh.length) :
    (rh.dropLast.map (fun _ => JVal.jnull) ++ [x] ++ B)[i]? = some JVal.jnull := by
  have hA : i < (rh.dropLast.map (fun _ => (JVal.jnull : JVal))).length := by
    simp only [List.length_map, List.length_dropLast]
    omega
  have hAx : i < ((rh.dropLast.map (fun _ => (JVal.jnull : JVal))) ++ [x]).length := by
    simp only [List.length_append, List.length_map, List.length_dropLast, List.length_cons,
      List.length_nil]
    omega
  rw [List.getElem?_append_left hAx, List.getElem?_append_left hA, List.getElem?_map,
    List.getElem?_eq_getElem (by simpa using hA)]
  rfl

theorem stitched_series_last (rh : List JObj) (x : JVal) (B : List JVal) (h : rh ≠ []) :
    (rh.dropLast.map (fun _ => JVal.jnull) ++ [x] ++ B)[rh.length - 1]? = some x := by
  have hpos : 0 < rh.length := List.length_pos.mpr h
  have hlen : (rh.dropLast.map (fun _ => (JVal.jnull : JVal))).length = rh.length - 1 := by
    simp
  have hAx : rh.length - 1
      < ((rh.dropLast.map (fun _ => (JVal.jnull : JVal))) ++ [x]).length := by
    simp only [List.length_append, List.length_map, List.length_dropLast, List.length_cons,
      List.length_nil]
    omega
  have hle : (rh.dropLast.map (fun _ => (JVal.jnull : JVal))).length ≤ rh.length - 1 := by
    rw [hlen]
  rw [List.getElem?_append_left hAx, List.getElem?_append_right hle, hlen]
  simp

theorem stitched_series_forecast (rh : List JObj) (x : JVal) (B : List JVal) (j : Nat)
    (h : rh ≠ []) :
    (rh.dropLast.map (fun _ => JVal.jnull) ++ [x] ++ B)[rh.length + j]? = B[j]? := by
  have hpos : 0 < rh.length := List.length_pos.mpr h
  have hlen : ((rh.dropLast.map (fun _ => (JVal.jnull : JVal))) ++ [x]).length = rh.length := by
    simp only [List.length_append, List.length_map, List.length_dropLast, List.length_cons,
      List.length_nil]
    omega
  have hle : ((rh.dropLast.map (fun _ => (JVal.jnull : JVal))) ++ [x]).length
      ≤ rh.length + j := by
    rw [hlen]
    omega
  rw [List.getElem?_append_right hle, hlen]
  congr 1
  omega

/-- C10: the forecast chart stitches the forecast onto history at exactly
one point — the predicted, upper-bound and lower-bound series are `null`
at every windowed historical index but the last, carry the last
historical `total_funding` value there (or 0 when the windowed history is
empty), the approved series is `null` at every historical index, and the
positions after the history hold exactly the forecast document's values
under the forecast years' labels. -/
theorem forecast_stitching (g : GlobalData) :
    (∀ i, i + 1 < (recentHistoryOf g).length →
      (predictedFunding g)[i]? = some JVal.jnull ∧
      (upperBound g)[i]? = some JVal.jnull ∧
      (lowerBound g)[i]? = some JVal.jnull) ∧
    (∀ last q, (recentHistoryOf g).getLast? = some last →
      getField last "total_funding" = JVal.num q →
      (predictedFunding g)[(recentHistoryOf g).length - 1]? = some (JVal.num q) ∧
      (upperBound g)[(recentHistoryOf g).length - 1]? = some (JVal.num q) ∧
      (lowerBound g)[(recentHistoryOf g).length - 1]? = some (JVal.num q)) ∧
    (recentHistoryOf g = [] →
      predictedFunding g
        = JVal.num 0 :: g.forecast.forecast.map (fun d => getField d "predicted_funding")) ∧
    (∀ i, i < (recentHistoryOf g).length → (approvedFunding g)[i]? = some JVal.jnull) ∧
    (∀ j, recentHistoryOf g ≠ [] →
      (predictedFunding g)[(recentHistoryOf g).length + j]?
        = (g.forecast.forecast.map (fun d => getField d "predicted_funding"))[j]?) ∧
    (∀ j, (forecastAllYears g)[(recentHistoryOf g).length + j]?
        = (g.forecast.forecast.map (fun d => getField d "year"))[j]?) := by
  refine ⟨?_, ?_, ?_, ?_, ?_, ?_⟩
  · intro i hi
    unfold predictedFunding upperBound lowerBound
    exact ⟨stitched_series_nulls _ _ _ i hi, stitched_series_nulls _ _ _ i hi,
      stitched_series_nulls _ _ _ i hi⟩
  · intro last q hlast hq
    have hne : recentHistoryOf g ≠ [] := by
      intro he
      rw [he] at hlast
      cases hlast
    have hval : lastHistoricalValue g = JVal.num q := by
      unfold lastHistoricalValue
      rw [hlast]
      show orZero (getField last "total_funding") = JVal.num q
      rw [hq, orZero_num]
    unfold predictedFunding upperBound lowerBound
    rw [hval]
    exact ⟨stitched_series_last _ _ _ hne, stitched_series_last _ _ _ hne,
      stitched_series_last _ _ _ hne⟩
  · intro he
    unfold predictedFunding lastHistoricalValue
    rw [he]
    rfl
  · intro i hi
    unfold approvedFunding
    rw [List.getElem?_append_left (by simpa using hi), List.getElem?_map,
      List.getElem?_eq_getElem (by simpa using hi)]
    rfl
  · intro j hne
    unfold predictedFunding
    exact stitched_series_forecast _ _ _ j hne
  · intro j
    unfold forecastAllYears
    have hle : ((recentHistoryOf g).map (fun d => getField d "year")).length
        ≤ (recentHistoryOf g).length + j := by
      simp
    rw [List.getElem?_append_right hle]
    congr 1
    simp

theorem recentHistoryOf_sampleGD : recentHistoryOf sampleGD = [yearEntry 2024 5 7] := by
  have hcond : (jsGE (getField (yearEntry 2024 5 7) "year")
        (sampleGD.forecast.current_year - 10) &&
      jsLE (getField (yearEntry 2024 5 7) "year") sampleGD.forecast.current_year) = true := by
    have hgf : getField (yearEntry 2024 5 7) "year" = JVal.num 2024 := by decide
    have hcy : sampleGD.forecast.current_year = 2024 := rfl
    rw [hgf, hcy]
    simp only [jsGE, jsLE, Bool.and_eq_true, decide_eq_true_eq]
    constructor <;> norm_num
  unfold recentHistoryOf
  show List.filter _ [yearEntry 2024 5 7] = [yearEntry 2024 5 7]
  simp [hcond]

/-- Witness for C10 at `sampleGD` (one windowed historical year, one
forecast year): index 0 carries the last historical value in the
predicted series and `null` in the approved series, and index 1 carries
the forecast document's predicted value. -/
theorem forecast_stitching_witness :
    (recentHistoryOf sampleGD).getLast? = some (yearEntry 2024 5 7) ∧
    getField (yearEntry 2024 5 7) "total_funding" = JVal.num 5 ∧
    (predictedFunding sampleGD)[0]? = some (JVal.num 5) ∧
    (approvedFunding sampleGD)[0]? = some JVal.jnull ∧
    (predictedFunding sampleGD)[1]? = some (JVal.num 6) := by
  have h := forecast_stitching sampleGD
  have hrh := recentHistoryOf_sampleGD
  have hlast : (recentHistoryOf sampleGD).getLast? = some (yearEntry 2024 5 7) := by
    rw [hrh]
    rfl
  have hlen : (recentHistoryOf sampleGD).length = 1 := by
    rw [hrh]
    rfl
  refine ⟨hlast, by decide, ?_, ?_, ?_⟩
  · have h2 := (h.2.1 (yearEntry 2024 5 7) 5 hlast (by decide)).1
    rw [hlen] at h2
    simpa using h2
  · exact h.2.2.2.1 0 (by rw [hlen]; norm_num)
  · have h2 := h.2.2.2.2.1 0 (by rw [hrh]; simp)
    rw [hlen] at h2
    have hval : (sampleGD.forecast.forecast.map
        (fun d => getField d "predicted_funding"))[0]? = some (JVal.num 6) := by decide
    rw [hval] at h2
    simpa using h2

/-- C8: drill-down documents are looked up by exact matching name/key —
state and city bar clicks open the modal exactly when `entityTrends`
has the clicked name as a key, recipient rows and keyword tags are
click-wired exactly when their full name/word is a key, and
`showDrilldown` on a name with no entry logs an error and returns
without showing the modal or building a chart. -/
theorem drilldown_exact_key_lookup (g : GlobalData) (name : String) :
    geoChartClickOpens g "total" name = (jsLookup g.entityTrends.states name).isSome ∧
    cityChartClickOpens g name = (jsLookup g.entityTrends.cities name).isSome ∧
    (∀ sortKey, ∀ row ∈ populateRecipientsTable g sortKey,
      row.clickable = (jsLookup g.entityTrends.recipients row.name).isSome) ∧
    (∀ tag ∈ createKeywordsCloud g,
      tag.clickable = (jsLookup g.keywordTrends.keywords tag.word).isSome) ∧
    (∀ ty, (ty = "keyword" ∨ ty = "state" ∨ ty = "city" ∨ ty = "recipient") →
      drillData g ty name = none →
      showDrilldown g ty name
        = DrillResult.noData ("No trend data for " ++ ty ++ ": " ++ name)) ∧
    (∀ ty data, drillData g ty name = some data →
      ∃ modal chart, showDrilldown g ty name = DrillResult.shown modal chart) := by
  refine ⟨?_, ?_, ?_, ?_, ?_, ?_⟩
  · simp [geoChartClickOpens]
  · rfl
  · intro sortKey row hrow
    unfold populateRecipientsTable at hrow
    obtain ⟨p, hp, rfl⟩ := List.mem_map.mp hrow
    rfl
  · intro tag htag
    unfold createKeywordsCloud at htag
    obtain ⟨k, hk, rfl⟩ := List.mem_map.mp htag
    rfl
  · intro ty hty h
    rcases hty with rfl | rfl | rfl | rfl <;> simp [showDrilldown, h]
  · intro ty data h
    unfold drillData at h
    split_ifs at h with h1 h2 h3 h4
    · subst h1
      have hd : drillData g "keyword" name = some data := by
        unfold drillData
        simp [h]
      exact ⟨drillModal "keyword" name data, drillChart data, by
        unfold showDrilldown
        rw [if_pos (by simp), hd]⟩
    · subst h2
      have hd : drillData g "state" name = some data := by
        unfold drillData
        simp [h]
      exact ⟨drillModal "state" name data, drillChart data, by
        unfold showDrilldown
        rw [if_pos (by simp), hd]⟩
    · subst h3
      have hd : drillData g "city" name = some data := by
        unfold drillData
        simp [h]
      exact ⟨drillModal "city" name data, drillChart data, by
        unfold showDrilldown
        rw [if_pos (by simp), hd]⟩
    · subst h4
      have hd : drillData g "recipient" name = some data := by
        unfold drillData
        simp [h]
      exact ⟨drillModal "recipient" name data, drillChart data, by
        unfold showDrilldown
        rw [if_pos (by simp), hd]⟩

/-- Witness for C8 at `drillGD`: `"Hessen"` has no entry, so the click is
inert and `showDrilldown` logs and bails; `"Bayern"` has an entry, so the
modal is shown. -/
theorem drilldown_exact_key_lookup_witness :
    showDrilldown drillGD "state" "Hessen"
      = DrillResult.noData "No trend data for state: Hessen" ∧
    geoChartClickOpens drillGD "total" "Hessen" = false ∧
    (∃ modal chart, showDrilldown drillGD "state" "Bayern" = DrillResult.shown modal chart) := by
  have h1 := drilldown_exact_key_lookup drillGD "Hessen"
  have h2 := drilldown_exact_key_lookup drillGD "Bayern"
  refine ⟨?_, ?_, ?_⟩
  · exact (h1.2.2.2.2.1 "state" (by simp) (by decide)).trans (by decide)
  · rw [h1.1]
    decide
  · exact h2.2.2.2.2.2 "state" bayernTrend (by decide)

/-- C3: the presentation layer binds to the documents structurally by
field name — storing the same value under a different name changes the
rendered chart data: `total_funding` and `project_count` in the temporal
chart, `share_pct` in the decade-ministry chart, `yearly` in the
drill-down, and `upper_bound` / `lower_bound` / `approved_funding` in the
forecast chart; the last two conjuncts exhibit the rendered values before
and after one such renaming. -/
theorem fields_read_by_name :
    createTemporalChart sampleGD "all" ≠ createTemporalChart sampleGDrenTF "all" ∧
    createTemporalChart sampleGD "all" ≠ createTemporalChart sampleGDrenPC "all" ∧
    createDecadeMinistryChart decadeGD ≠ createDecadeMinistryChart decadeGDren ∧
    showDrilldown drillGD "state" "Bayern" ≠ showDrilldown drillGDren "state" "Bayern" ∧
    createForecastChart fcGD ≠ createForecastChart fcGDrenUB ∧
    createForecastChart fcGD ≠ createForecastChart fcGDrenLB ∧
    createForecastChart fcGD ≠ createForecastChart fcGDrenAF ∧
    (createTemporalChart sampleGD "all").datasets = [[JVal.num 5], [JVal.num 7]] ∧
    (createTemporalChart sampleGDrenTF "all").datasets = [[JVal.undef], [JVal.num 7]] := by
  refine ⟨by decide, by decide, by decide, by decide, by decide, by decide, by decide,
    by decide, by decide⟩

theorem recentHistoryOf_sampleGD2 : recentHistoryOf sampleGD2 = [yearEntry 2024 9 7] := by
  have hcond : (jsGE (getField (yearEntry 2024 9 7) "year")
        (sampleGD2.forecast.current_year - 10) &&
      jsLE (getField (yearEntry 2024 9 7) "year") sampleGD2.forecast.current_year) = true := by
    have hgf : getField (yearEntry 2024 9 7) "year" = JVal.num 2024 := by decide
    have hcy : sampleGD2.forecast.current_year = 2024 := rfl
    rw [hgf, hcy]
    simp only [jsGE, jsLE, Bool.and_eq_true, decide_eq_true_eq]
    constructor <;> norm_num
  unfold recentHistoryOf
  show List.filter _ [yearEntry 2024 9 7] = [yearEntry 2024 9 7]
  simp [hcond]

theorem recentHistoryOf_sampleGD3 : recentHistoryOf sampleGD3 = [yearEntry 2024 5 7] := by
  have hcond : (jsGE (getField (yearEntry 2024 5 7) "year")
        (sampleGD3.forecast.current_year - 10) &&
      jsLE (getField (yearEntry 2024 5 7) "year") sampleGD3.forecast.current_year) = true := by
    have hgf : getField (yearEntry 2024 5 7) "year" = JVal.num 2024 := by decide
    have hcy : sampleGD3.forecast.current_year = 2024 := rfl
    rw [hgf, hcy]
    simp only [jsGE, jsLE, Bool.and_eq_true, decide_eq_true_eq]
    constructor <;> norm_num
  unfold recentHistoryOf
  show List.filter _ [yearEntry 2024 5 7] = [yearEntry 2024 5 7]
  simp [hcond]

theorem fundingTypeChart_tooltip_ftGD :
    (createFundingTypeChart ftGD).tooltipLabels = ["5 € (50.0%)"] := by
  show [formatCurrency (asNum (getField ftEntry "total_funding")) false ++ " (" ++
      toFixed1 (asNum (getField ftEntry "total_funding") / ftGD.summary.total_funding * 100) ++
      "%)"] = _
  have h1 : asNum (getField ftEntry "total_funding") = (5 : ℚ) := by decide
  have h2 : ftGD.summary.total_funding = (10 : ℚ) := rfl
  rw [h1, h2]
  have h3 : (5 : ℚ) / 10 * 100 = 50 := by norm_num
  rw [h3]
  have h4 : jsRound ((50 : ℚ) * 10) = 500 := by
    unfold jsRound
    rw [if_pos (by norm_num), Int.floor_eq_iff]
    constructor <;> norm_num
  have h5 : toFixed1 50 = "50.0" := by
    unfold toFixed1
    rw [h4]
    decide
  have h6 : jsRound (5 : ℚ) = 5 := by
    unfold jsRound
    rw [if_pos (by norm_num), Int.floor_eq_iff]
    constructor <;> norm_num
  have h7 : formatCurrency 5 false = "5 €" := by
    show intlCurrencyDeDE 5 = _
    unfold intlCurrencyDeDE
    rw [h6]
    decide
  rw [h5, h7]
  decide

theorem fundingTypeChart_tooltip_ftGD2 :
    (createFundingTypeChart ftGD2).tooltipLabels = ["5 € (25.0%)"] := by
  show [formatCurrency (asNum (getField ftEntry "total_funding")) false ++ " (" ++
      toFixed1 (asNum (getField ftEntry "total_funding") / ftGD2.summary.total_funding * 100) ++
      "%)"] = _
  have h1 : asNum (getField ftEntry "total_funding") = (5 : ℚ) := by decide
  have h2 : ftGD2.summary.total_funding = (20 : ℚ) := rfl
  rw [h1, h2]
  have h3 : (5 : ℚ) / 20 * 100 = 25 := by norm_num
  rw [h3]
  have h4 : jsRound ((25 : ℚ) * 10) = 250 := by
    unfold jsRound
    rw [if_pos (by norm_num), Int.floor_eq_iff]
    constructor <;> norm_num
  have h5 : toFixed1 25 = "25.0" := by
    unfold toFixed1
    rw [h4]
    decide
  have h6 : jsRound (5 : ℚ) = 5 := by
    unfold jsRound
    rw [if_pos (by norm_num), Int.floor_eq_iff]
    constructor <;> norm_num
  have h7 : formatCurrency 5 false = "5 €" := by
    show intlCurrencyDeDE 5 = _
    unfold intlCurrencyDeDE
    rw [h6]
    decide
  rw [h5, h7]
  decide

/-- C2 counterexample: chart rendering is not single-document — two stores
agreeing on every document except `temporal_trends` render different
forecast charts, two stores agreeing on every document except
`funding_forecast` also render different forecast charts, two stores
agreeing on every document except `summary_stats` render different
funding-type charts (the tooltip of main.js line 898 divides by the
summary's grand total), and one failed fetch among thirteen results makes
`loadData` show the error page instead of the dashboard, so no chart at
all is rendered. -/
theorem forecastChart_reads_two_documents :
    sampleGD2.forecast = sampleGD.forecast ∧
    sampleGD2.summary = sampleGD.summary ∧
    sampleGD2.ministry = sampleGD.ministry ∧
    sampleGD2.geographic = sampleGD.geographic ∧
    sampleGD2.recipients = sampleGD.recipients ∧
    sampleGD2.topics = sampleGD.topics ∧
    sampleGD2.duration = sampleGD.duration ∧
    sampleGD2.fundingTypes = sampleGD.fundingTypes ∧
    sampleGD2.jointProjects = sampleGD.jointProjects ∧
    sampleGD2.projekttraeger = sampleGD.projekttraeger ∧
    sampleGD2.keywordTrends = sampleGD.keywordTrends ∧
    sampleGD2.entityTrends = sampleGD.entityTrends ∧
    createForecastChart sampleGD ≠ createForecastChart sampleGD2 ∧
    sampleGD3.temporal = sampleGD.temporal ∧
    sampleGD3.summary = sampleGD.summary ∧
    createForecastChart sampleGD ≠ createForecastChart sampleGD3 ∧
    ftGD2.fundingTypes = ftGD.fundingTypes ∧
    ftGD2.ministry = ftGD.ministry ∧
    ftGD2.geographic = ftGD.geographic ∧
    ftGD2.temporal = ftGD.temporal ∧
    ftGD2.recipients = ftGD.recipients ∧
    ftGD2.topics = ftGD.topics ∧
    ftGD2.duration = ftGD.duration ∧
    ftGD2.jointProjects = ftGD.jointProjects ∧
    ftGD2.projekttraeger = ftGD.projekttraeger ∧
    ftGD2.keywordTrends = ftGD.keywordTrends ∧
    ftGD2.entityTrends = ftGD.entityTrends ∧
    ftGD2.forecast = ftGD.forecast ∧
    createFundingTypeChart ftGD ≠ createFundingTypeChart ftGD2 ∧
    loadData (List.replicate 12 (some 0) ++ [(none : Option Nat)])
      = LoadOutcome.errorPage := by
  have eA : createForecastChart sampleGD
      = { labels := [JVal.num 2024, JVal.num 2025],
          datasets := [[JVal.num 5, JVal.jnull], [JVal.num 5, JVal.num 6],
                       [JVal.num 5, JVal.num 8], [JVal.num 5, JVal.num 4],
                       [JVal.jnull, JVal.num 2]] } := by
    unfold createForecastChart forecastAllYears historicalFunding predictedFunding upperBound
      lowerBound approvedFunding lastHistoricalValue
    rw [recentHistoryOf_sampleGD]
    decide
  have eB : createForecastChart sampleGD2
      = { labels := [JVal.num 2024, JVal.num 2025],
          datasets := [[JVal.num 9, JVal.jnull], [JVal.num 9, JVal.num 6],
                       [JVal.num 9, JVal.num 8], [JVal.num 9, JVal.num 4],
                       [JVal.jnull, JVal.num 2]] } := by
    unfold createForecastChart forecastAllYears historicalFunding predictedFunding upperBound
      lowerBound approvedFunding lastHistoricalValue
    rw [recentHistoryOf_sampleGD2]
    decide
  have eC : createForecastChart sampleGD3
      = { labels := [JVal.num 2024, JVal.num 2025],
          datasets := [[JVal.num 5, JVal.jnull], [JVal.num 5, JVal.num 60],
                       [JVal.num 5, JVal.num 80], [JVal.num 5, JVal.num 40],
                       [JVal.jnull, JVal.num 20]] } := by
    unfold createForecastChart forecastAllYears historicalFunding predictedFunding upperBound
      lowerBound approvedFunding lastHistoricalValue
    rw [recentHistoryOf_sampleGD3]
    decide
  refine ⟨rfl, rfl, rfl, rfl, rfl, rfl, rfl, rfl, rfl, rfl, rfl, rfl, ?_, rfl, rfl, ?_,
    rfl, rfl, rfl, rfl, rfl, rfl, rfl, rfl, rfl, rfl, rfl, rfl, ?_, by decide⟩
  · rw [eA, eB]
    decide
  · rw [eA, eC]
    decide
  · intro heq
    have h := congrArg FundingTypeRender.tooltipLabels heq
    rw [fundingTypeChart_tooltip_ftGD, fundingTypeChart_tooltip_ftGD2] at h
    exact absurd h (by decide)

theorem promiseAll_eq_none {α : Type} (results : List (Option α)) (h : none ∈ results) :
    promiseAll results = none := by
  induction results with
  | nil => cases h
  | cons o rest ih =>
    rcases List.mem_cons.mp h with rfl | hmem
    · rfl
    · cases o with
      | none => rfl
      | some v =>
        show (match promiseAll rest with
              | some vs => some (v :: vs)
              | none => none) = none
        rw [ih hmem]

/-- C2 amended: each chart-construction function other than the forecast
chart and the funding-type chart reads from at most one primary document
(consulting, at most, the optional drill-down documents for
click-wiring); the forecast chart (and hence the temporal chart, which
delegates to it) reads both the temporal and the forecast documents; the
funding-type chart reads both the funding-types document and the summary
document (its tooltip's share of the grand total); and loading is
all-or-nothing — failure of any one fetch renders no chart at all. -/
theorem chart_single_document_dependence :
    (∀ g1 g2 : GlobalData, g1.summary = g2.summary →
      updateOverviewCards g1 = updateOverviewCards g2) ∧
    (∀ g1 g2 : GlobalData, g1.ministry = g2.ministry →
      createMinistryChart g1 = createMinistryChart g2) ∧
    (∀ g1 g2 : GlobalData, g1.geographic = g2.geographic →
      createInternationalChart g1 = createInternationalChart g2) ∧
    (∀ g1 g2 : GlobalData, ∀ mode, g1.geographic = g2.geographic →
      createGeoChart g1 mode = createGeoChart g2 mode) ∧
    (∀ g1 g2 : GlobalData, g1.geographic = g2.geographic →
      createCityChart g1 = createCityChart g2) ∧
    (∀ g1 g2 : GlobalData, g1.recipients = g2.recipients →
      createRecipientChart g1 = createRecipientChart g2) ∧
    (∀ g1 g2 : GlobalData, g1.fundingTypes = g2.fundingTypes →
      createFoerderprofilChart g1 = createFoerderprofilChart g2) ∧
    (∀ g1 g2 : GlobalData, g1.fundingTypes = g2.fundingTypes → g1.summary = g2.summary →
      createFundingTypeChart g1 = createFundingTypeChart g2) ∧
    (∀ g1 g2 : GlobalData, g1.duration = g2.duration →
      createDurationChart g1 = createDurationChart g2) ∧
    (∀ g1 g2 : GlobalData, g1.topics = g2.topics →
      createTopicChart g1 = createTopicChart g2) ∧
    (∀ g1 g2 : GlobalData, g1.jointProjects = g2.jointProjects →
      createJointChart g1 = createJointChart g2) ∧
    (∀ g1 g2 : GlobalData, g1.projekttraeger = g2.projekttraeger →
      createProjekttraegerChart g1 = createProjekttraegerChart g2) ∧
    (∀ g1 g2 : GlobalData, g1.temporal = g2.temporal →
      createMonthlyChart g1 = createMonthlyChart g2 ∧
      createDecadeMinistryChart g1 = createDecadeMinistryChart g2 ∧
      (∀ range, temporalData g1 range = temporalData g2 range)) ∧
    (∀ g1 g2 : GlobalData, g1.topics = g2.topics → g1.keywordTrends = g2.keywordTrends →
      createKeywordsCloud g1 = createKeywordsCloud g2) ∧
    (∀ g1 g2 : GlobalData, ∀ sortKey, g1.recipients = g2.recipients →
      g1.entityTrends = g2.entityTrends →
      populateRecipientsTable g1 sortKey = populateRecipientsTable g2 sortKey) ∧
    (∀ g1 g2 : GlobalData, ∀ range, g1.temporal = g2.temporal → g1.forecast = g2.forecast →
      createTemporalChart g1 range = createTemporalChart g2 range ∧
      createForecastChart g1 = createForecastChart g2) ∧
    (∀ (α : Type) (results : List (Option α)), none ∈ results →
      loadData results = LoadOutcome.errorPage) := by
  refine ⟨?_, ?_, ?_, ?_, ?_, ?_, ?_, ?_, ?_, ?_, ?_, ?_, ?_, ?_, ?_, ?_, ?_⟩
  · intro g1 g2 h
    unfold updateOverviewCards
    rw [h]
  · intro g1 g2 h
    unfold createMinistryChart
    rw [h]
  · intro g1 g2 h
    unfold createInternationalChart
    rw [h]
  · intro g1 g2 mode h
    unfold createGeoChart
    rw [h]
  · intro g1 g2 h
    unfold createCityChart
    rw [h]
  · intro g1 g2 h
    unfold createRecipientChart
    rw [h]
  · intro g1 g2 h
    unfold createFoerderprofilChart
    rw [h]
  · intro g1 g2 h1 h2
    unfold createFundingTypeChart
    rw [h1, h2]
  · intro g1 g2 h
    unfold createDurationChart
    rw [h]
  · intro g1 g2 h
    unfold createTopicChart
    rw [h]
  · intro g1 g2 h
    unfold createJointChart
    rw [h]
  · intro g1 g2 h
    unfold createProjekttraegerChart
    rw [h]
  · intro g1 g2 h
    unfold createMonthlyChart createDecadeMinistryChart temporalData
    rw [h]
    exact ⟨rfl, rfl, fun _ => rfl⟩
  · intro g1 g2 h1 h2
    unfold createKeywordsCloud
    rw [h1, h2]
  · intro g1 g2 sortKey h1 h2
    unfold populateRecipientsTable
    rw [h1, h2]
  · intro g1 g2 range h1 h2
    unfold createTemporalChart temporalData createForecastChart forecastAllYears
      historicalFunding predictedFunding upperBound lowerBound approvedFunding
      lastHistoricalValue recentHistoryOf
    rw [h1, h2]
    exact ⟨rfl, rfl⟩
  · intro α results h
    unfold loadData
    rw [promiseAll_eq_none results h]

/-- Witness for C2's amended statement: the frame condition applied at a
concrete store, and a concrete failed fetch yielding the error page. -/
theorem chart_single_document_dependence_witness :
    createMinistryChart emptyGD = createMinistryChart emptyGD ∧
    loadData [(none : Option Nat)] = LoadOutcome.errorPage := by
  obtain ⟨-, hMin, -, -, -, -, -, -, -, -, -, -, -, -, -, -, hLoad⟩ :=
    chart_single_document_dependence
  exact ⟨hMin emptyGD emptyGD rfl, hLoad Nat [none] (by simp)⟩

end FundingCatalog
